import Mathlib

/-!
Verification of the browser data-preparation and visualization pipeline of the
stock-price prediction front-end (`static/js/app.js`).

The JavaScript is shallowly embedded: JS numbers become rationals (`ℚ`),
arrays become `List`s, optional response fields become `Option`s (with `none`
covering the JS-falsy cases absent / `null` / `undefined`; a present array is
always truthy in JS, even when empty), and the submit handler's two outcomes
(error branch vs. chart render) become an explicit `SubmitOutcome`.
-/

namespace StockApp

/-! ### Smoother (`movingAverage`, app.js lines 11–25)

The source maintains a running sum: it adds `arr[i]` each step, and once
`i >= window` it also subtracts `arr[i - window]` before emitting
`sum / window`; for `i < window` it emits `sum / (i + 1)`.  `maGo` carries the
mutable `sum` explicitly. -/

/-- Loop body of `movingAverage`: `arr` is the whole input array (needed for
the `arr[i - window]` subtraction), the `List` argument is the remaining
suffix being traversed, `i` the current index and `sum` the running sum. -/
def maGo (arr : List ℚ) (window : ℕ) : List ℚ → ℕ → ℚ → List ℚ
  | [], _, _ => []
  | x :: rest, i, sum =>
    if window ≤ i then
      (sum + x - arr.getD (i - window) 0) / (window : ℚ) ::
        maGo arr window rest (i + 1) (sum + x - arr.getD (i - window) 0)
    else
      (sum + x) / ((i : ℚ) + 1) :: maGo arr window rest (i + 1) (sum + x)

/-- `movingAverage(arr, window)` from app.js, on an input that is an array.
The `!Array.isArray(arr)` part of the guard lives in `movingAverageJS`. -/
def movingAverage (arr : List ℚ) (window : ℕ) : List ℚ :=
  if arr.length = 0 then [] else maGo arr window arr 0 0

/-- A JavaScript value at the smoother's public boundary: `movingAverage` is
called on `data.predicted`-shaped data but guards itself with
`Array.isArray`. -/
inductive JSVal where
  | arr (elems : List ℚ)
  | num (n : ℚ)
  | str (s : String)
  | bool (b : Bool)
  | null
  | undef
deriving DecidableEq

/-- `Array.isArray` on the embedded values. -/
def isArray : JSVal → Bool
  | .arr _ => true
  | _ => false

/-- `movingAverage` exactly as written: `if (!Array.isArray(arr) ||
arr.length === 0) return [];` then the summing loop. -/
def movingAverageJS (v : JSVal) (window : ℕ) : List ℚ :=
  match v with
  | .arr arr => movingAverage arr window
  | _ => []

/-- Arithmetic mean of a list of rationals (the spec's `mean`). -/
def mean (l : List ℚ) : ℚ := l.sum / (l.length : ℚ)

/-- Closed form for the value emitted at index `i`:
the running sum entering the emission at index `i` is
`(arr.take (i+1)).sum - (arr.take (i+1-window)).sum`. -/
def outAt (arr : List ℚ) (w i : ℕ) : ℚ :=
  if w ≤ i then ((arr.take (i + 1)).sum - (arr.take (i + 1 - w)).sum) / (w : ℚ)
  else (arr.take (i + 1)).sum / ((i : ℚ) + 1)

/-- Reference output stream: `maOut arr w i n` is the list of the `n` outputs
emitted starting at index `i`. -/
def maOut (arr : List ℚ) (w : ℕ) : ℕ → ℕ → List ℚ
  | _, 0 => []
  | i, n + 1 => outAt arr w i :: maOut arr w (i + 1) n

/-! ### Data model

The parsed success-response body (`data` in the submit handler).  Optional
array fields are `Option`s: `none` is the JS-falsy case (field absent,
`null` or `undefined`); `some l` is a present array, which in JS is truthy
even when `l` is empty.  The `Number(...)` coercion the handler maps over
numeric arrays is the identity in this rational model. -/

structure PredictionData where
  ticker : String
  rmse : ℚ
  dates : Option (List String)
  actual : Option (List ℚ)
  predicted : Option (List ℚ)
  future_dates : Option (List String)
  future_preds : Option (List ℚ)
deriving DecidableEq

/-- Plotly trace `mode` strings used by the handler:
`'lines'`, `'markers'`, `'lines+markers'`. -/
inductive Mode where
  | lines
  | markers
  | linesMarkers
deriving DecidableEq

/-- One chart series as handed to the renderer (visual style fields that no
claim mentions are omitted). -/
structure Trace where
  x : List String
  y : List ℚ
  mode : Mode
  name : String
deriving DecidableEq

/-- JS `l.slice(-n)` for a non-negative `n` (`slice(-0)` is `slice(0)`,
the whole array). -/
def jsSliceLast (l : List α) (n : ℕ) : List α :=
  if n = 0 then l else l.drop (l.length - n)

/-- Module-level config flag of app.js line 4. -/
def USE_SMOOTH_PREDICTED : Bool := true

/-- Module-level config constant of app.js line 5. -/
def SMOOTH_WINDOW : ℕ := 3

/-- Module-level config flag of app.js line 7. -/
def SHOW_RECENT_MARKERS : Bool := true

/-- Module-level config constant of app.js line 8. -/
def RECENT_N : ℕ := 12

/-- Trace construction of the submit handler (app.js lines 64–127), with the
four module-level config constants generalized to parameters: the spec's
`DisplayToggles` maps `smoothPredicted` to `useSmooth` and
`showRecentMarkers` to `showRecent`; the source configuration is
`USE_SMOOTH_PREDICTED` / `SMOOTH_WINDOW` / `SHOW_RECENT_MARKERS` /
`RECENT_N` (see `buildTracesConfig`).  Pushes, in order: actual, recent
markers (guarded), predicted (smoothed when enabled and non-empty), future
(guarded by `data.future_preds && data.future_dates`, i.e. both present). -/
def buildTraces (useSmooth : Bool) (smoothWin : ℕ) (showRecent : Bool)
    (recentN : ℕ) (d : PredictionData) : List Trace :=
  let dates := d.dates.getD []
  let actual := d.actual.getD []
  let predicted0 := d.predicted.getD []
  let predicted :=
    if useSmooth ∧ 0 < predicted0.length
    then movingAverage predicted0 smoothWin else predicted0
  [Trace.mk dates actual Mode.lines "Actual (Test)"] ++
    (if showRecent ∧ 0 < actual.length then
      [Trace.mk (jsSliceLast dates (min recentN actual.length))
        (jsSliceLast actual (min recentN actual.length))
        Mode.markers "Recent (Markers)"]
    else []) ++
    [Trace.mk dates predicted Mode.lines "Predicted (Test)"] ++
    (if d.future_preds.isSome ∧ d.future_dates.isSome then
      [Trace.mk (d.future_dates.getD []) (d.future_preds.getD [])
        Mode.linesMarkers
        ("Predicted (Future " ++ toString (d.future_dates.getD []).length ++
          " days)")]
    else [])

/-- `buildTraces` at the source's module-level configuration. -/
def buildTracesConfig (d : PredictionData) : List Trace :=
  buildTraces USE_SMOOTH_PREDICTED SMOOTH_WINDOW SHOW_RECENT_MARKERS RECENT_N d

/-- Role of a series in the chart, recovered from its render mode and name:
the recent-markers series is the only `markers` trace, the future series the
only `lines+markers` trace, and the two `lines` traces are told apart by
their legend names. -/
inductive Role where
  | actual
  | recent
  | predicted
  | future
deriving DecidableEq

/-- Classify a trace by role (see `Role`). -/
def roleOf (t : Trace) : Role :=
  match t.mode with
  | Mode.markers => Role.recent
  | Mode.linesMarkers => Role.future
  | Mode.lines =>
    if t.name = "Actual (Test)" then Role.actual else Role.predicted

/-- Chart layout (app.js lines 130–174); fields not mentioned by any claim
are omitted.  Note `rangeslider.visible` is the literal `true`. -/
structure ChartLayout where
  titleText : String
  hovermode : String
  xaxisType : String
  rangesliderVisible : Bool
  yaxisTitle : String
  legendOrientation : String
  marginTop : ℕ
  height : ℕ
deriving DecidableEq

/-- The layout object built by the submit handler. -/
def buildLayout (ticker : String) : ChartLayout where
  titleText := ticker ++ " — Actual vs Predicted (Test + Future)"
  hovermode := "x unified"
  xaxisType := "date"
  rangesliderVisible := true
  yaxisTitle := "Price"
  legendOrientation := "h"
  marginTop := 160
  height := 700

/-- Display toggles of the spec's data model (`DisplayToggles`). -/
structure DisplayToggles where
  showRangeslider : Bool
  smoothPredicted : Bool
  showRecentMarkers : Bool
deriving DecidableEq

/-- Result of `await resp.json().catch(() => ({}))` in the error branch:
the parsed body's optional `error` field, plus `JSON.stringify` of the
parsed object. -/
structure ErrBody where
  error : Option String
  stringified : String
deriving DecidableEq

/-- JS `a || b` on strings: the empty string is the only falsy string. -/
def jsOr (a b : String) : String := if a = "" then b else a

/-- Status text of the error branch (app.js line 56):
`'Error: ' + (err.error || resp.statusText || JSON.stringify(err))`.
An absent `error` field is `undefined`, which falls through exactly like
the empty string, hence the `getD ""`. -/
def errorMessage (eb : ErrBody) (statusText : String) : String :=
  "Error: " ++ jsOr (eb.error.getD "") (jsOr statusText eb.stringified)

/-- Modelled from the claim's words (not the source), for comparison with
`errorMessage`: "the parsed body's error field if present, otherwise the
response status text, otherwise the stringified body, prefixed with
Error:". -/
def claimedErrorMessage (eb : ErrBody) (statusText : String) : String :=
  "Error: " ++
    (match eb.error with
    | some e => e
    | none => if statusText = "" then eb.stringified else statusText)

/-- Outcome of one fetch of `/api/predict`, as seen by the submit handler
after `await`: either a non-ok response (with its status text and the
error-body parse) or an ok response with parsed data. -/
inductive FetchResult where
  | ok (data : PredictionData)
  | httpError (statusText : String) (errBody : ErrBody)
deriving DecidableEq

/-- What the submit handler does with a response: either it only sets the
status text and returns (no chart), or it sets the status text and hands
traces plus layout to the renderer. -/
inductive SubmitOutcome where
  | failure (statusText : String)
  | success (statusText : String) (traces : List Trace) (layout : ChartLayout)
deriving DecidableEq

/-- Whether the outcome reaches `Plotly.newPlot`. -/
def drawsChart : SubmitOutcome → Bool
  | .failure _ => false
  | .success _ _ _ => true

/-- Response processing of the submit handler (app.js lines 54–184), flags
generalized as in `buildTraces`: non-ok responses take the early-return
error branch; ok responses set the success status and render the composed
traces and layout. -/
def handleFetch (useSmooth : Bool) (smoothWin : ℕ) (showRecent : Bool)
    (recentN : ℕ) : FetchResult → SubmitOutcome
  | .httpError statusText eb => .failure (errorMessage eb statusText)
  | .ok data =>
    .success "Prediction complete ✔"
      (buildTraces useSmooth smoothWin showRecent recentN data)
      (buildLayout data.ticker)

/-! ### Form parsing (`PredictionRequest` construction, app.js lines 36–41) -/

/-- Value of a run of decimal digits. -/
def digitsToNat (cs : List Char) : ℕ :=
  cs.foldl (fun a c => 10 * a + (c.toNat - 48)) 0

/-- JS `parseInt` on a string, decimal semantics: skip leading whitespace,
read an optional sign, then the longest run of decimal digits; `none` is
`NaN` (no digits).  (The automatic radix-16 mode for `0x` prefixes is not
modelled; form field values are decimal.) -/
def parseIntJS (s : String) : Option Int :=
  let cs := s.toList.dropWhile (fun c => c.isWhitespace)
  let signed : Int × List Char :=
    match cs with
    | '-' :: rest => (-1, rest)
    | '+' :: rest => (1, rest)
    | _ => (1, cs)
  let digits := signed.2.takeWhile (fun c => c.isDigit)
  if digits.isEmpty then none
  else some (signed.1 * (digitsToNat digits : Int))

/-- The request body sent to `/api/predict`.  `lookback`, `epochs` and
`future_days` are `Option Int`: `none` is `NaN`, which `JSON.stringify`
serializes as `null`.  The `end` field is `endDate` (`end` is a Lean
keyword). -/
structure PredictionRequest where
  ticker : String
  start : String
  endDate : String
  lookback : Option Int
  epochs : Option Int
  future_days : Option Int
deriving DecidableEq

/-- Request construction from the raw form field values (app.js lines
36–41): `ticker.value.trim()`, `parseInt(lookback.value)`,
`parseInt(epochs.value)`, and `parseInt(future_days.value || 0)` — the
`|| 0` replaces an empty (falsy) string by the number `0`, which `parseInt`
coerces back to the string `"0"`. -/
def buildRequest (tickerRaw startRaw endRaw lookbackRaw epochsRaw
    futureDaysRaw : String) : PredictionRequest where
  ticker := tickerRaw.trim
  start := startRaw
  endDate := endRaw
  lookback := parseIntJS lookbackRaw
  epochs := parseIntJS epochsRaw
  future_days := parseIntJS (if futureDaysRaw = "" then "0" else futureDaysRaw)

end StockApp

namespace StockApp

lemma take_sum_succ (l : List ℚ) (i : ℕ) (h : i < l.length) :
    (l.take (i + 1)).sum = (l.take i).sum + l.getD i 0 := by
  rw [List.getD_eq_getElem l 0 h]
  exact List.sum_take_succ l i h

lemma maGo_spec (arr : List ℚ) (w : ℕ) :
    ∀ (l : List ℚ) (i : ℕ), arr.drop i = l →
      maGo arr w l i ((arr.take i).sum - (arr.take (i - w)).sum) =
        maOut arr w i l.length := by
  intro l
  induction l with
  | nil => intro i _; simp [maGo, maOut]
  | cons x rest ih =>
    intro i h
    have hlen : arr.length - i = rest.length + 1 := by
      have := congrArg List.length h
      simpa using this
    have hi : i < arr.length := by omega
    have htake : arr.take (i + 1) = arr.take i ++ [x] := by
      have h1 : arr.take (i + 1) = arr.take i ++ (arr.drop i).take 1 :=
        List.take_add arr i 1
      rw [h1, h]
      rfl
    have hsum : (arr.take (i + 1)).sum = (arr.take i).sum + x := by
      rw [htake]; simp
    have hrest : arr.drop (i + 1) = rest := by
      have h2 : (arr.drop i).drop 1 = arr.drop (i + 1) := List.drop_drop 1 i arr
      rw [← h2, h]
      rfl
    by_cases hc : w ≤ i
    · have hiw : i - w < arr.length := by omega
      have hsub : (arr.take (i - w + 1)).sum =
          (arr.take (i - w)).sum + arr.getD (i - w) 0 :=
        take_sum_succ arr (i - w) hiw
      have hnum : (arr.take i).sum - (arr.take (i - w)).sum + x - arr.getD (i - w) 0 =
          (arr.take (i + 1)).sum - (arr.take (i + 1 - w)).sum := by
        have he : i + 1 - w = i - w + 1 := by omega
        rw [he, hsub, hsum]; ring
      have hout : outAt arr w i =
          ((arr.take (i + 1)).sum - (arr.take (i + 1 - w)).sum) / (w : ℚ) := by
        simp [outAt, hc]
      simp only [maGo, if_pos hc, maOut]
      congr 1
      · rw [hnum, hout]
      · rw [hnum]
        exact ih (i + 1) hrest
    · have hiw0 : i - w = 0 := by omega
      have hiw1 : i + 1 - w = 0 := by omega
      have hnum : (arr.take i).sum - (arr.take (i - w)).sum + x =
          (arr.take (i + 1)).sum - (arr.take (i + 1 - w)).sum := by
        rw [hiw0, hiw1, hsum]; simp
      have hout : outAt arr w i = (arr.take (i + 1)).sum / ((i : ℚ) + 1) := by
        simp [outAt, hc]
      simp only [maGo, if_neg hc, maOut]
      congr 1
      · rw [hnum, hiw1, hout]; simp
      · rw [hnum]
        exact ih (i + 1) hrest

lemma movingAverage_eq_maOut (arr : List ℚ) (w : ℕ) :
    movingAverage arr w = maOut arr w 0 arr.length := by
  by_cases h : arr.length = 0
  · have : arr = [] := List.length_eq_zero.mp h
    subst this
    simp [movingAverage, maOut]
  · unfold movingAverage
    rw [if_neg h]
    have := maGo_spec arr w arr 0 (by simp)
    simpa using this

lemma maOut_length (arr : List ℚ) (w : ℕ) :
    ∀ (n i : ℕ), (maOut arr w i n).length = n := by
  intro n
  induction n with
  | zero => intro i; simp [maOut]
  | succ m ih => intro i; simp [maOut, ih (i + 1)]

lemma maOut_getD (arr : List ℚ) (w : ℕ) :
    ∀ (n i k : ℕ), k < n → (maOut arr w i n).getD k 0 = outAt arr w (i + k) := by
  intro n
  induction n with
  | zero => intro i k hk; omega
  | succ m ih =>
    intro i k hk
    match k with
    | 0 => simp [maOut]
    | k' + 1 =>
      have : (maOut arr w (i + 1) m).getD k' 0 = outAt arr w (i + 1 + k') :=
        ih (i + 1) k' (by omega)
      simp only [maOut, List.getD_cons_succ]
      rw [this]
      congr 1
      omega

lemma movingAverage_length (arr : List ℚ) (w : ℕ) :
    (movingAverage arr w).length = arr.length := by
  rw [movingAverage_eq_maOut]; exact maOut_length arr w arr.length 0

lemma movingAverage_getD (arr : List ℚ) (w : ℕ) (i : ℕ) (h : i < arr.length) :
    (movingAverage arr w).getD i 0 = outAt arr w i := by
  rw [movingAverage_eq_maOut]
  have := maOut_getD arr w arr.length 0 i h
  simpa using this

/-- C1: for every numeric sequence `v` and window `w ≥ 1`,
`movingAverage v w` has the same length as `v`; at each index `i < w` it is
the mean of `v[0..i]` (denominator `i + 1`); at each index `i ≥ w` it is the
mean of the last `w` elements `v[i-w+1..i]`; and `movingAverage [] w = []`
for every `w`. -/
theorem C1_smoother (v : List ℚ) (w : ℕ) (hw : 1 ≤ w) :
    (movingAverage v w).length = v.length ∧
    movingAverage ([] : List ℚ) w = [] ∧
    (∀ i, i < v.length → i < w →
      (movingAverage v w).getD i 0 = mean (v.take (i + 1))) ∧
    (∀ i, i < v.length → w ≤ i →
      (movingAverage v w).getD i 0 = mean ((v.drop (i + 1 - w)).take w)) := by
  refine ⟨movingAverage_length v w, rfl, ?_, ?_⟩
  · intro i hi hiw
    rw [movingAverage_getD v w i hi]
    unfold outAt mean
    rw [if_neg (by omega), List.length_take]
    have hmin : min (i + 1) v.length = i + 1 := by omega
    rw [hmin]
    push_cast
    ring
  · intro i hi hiw
    rw [movingAverage_getD v w i hi]
    unfold outAt mean
    rw [if_pos hiw]
    have hlen : ((v.drop (i + 1 - w)).take w).length = w := by
      rw [List.length_take, List.length_drop]; omega
    have hsplit : v.take (i + 1) =
        v.take (i + 1 - w) ++ (v.drop (i + 1 - w)).take w := by
      have h1 : i + 1 - w + w = i + 1 := by omega
      have h2 := List.take_add v (i + 1 - w) w
      rw [h1] at h2
      exact h2
    have hsum : (v.take (i + 1)).sum =
        (v.take (i + 1 - w)).sum + ((v.drop (i + 1 - w)).take w).sum := by
      rw [hsplit, List.sum_append]
    rw [hlen, hsum]
    ring

/-- Witness for C1 at `v = [1, 2, 3, 4]`, `w = 2`: the output has length 4,
entry 0 is the mean of `[1]`, and entry 2 is the mean of `[2, 3]`. -/
theorem C1_smoother_witness :
    (movingAverage [(1 : ℚ), 2, 3, 4] 2).length = 4 ∧
    (movingAverage [(1 : ℚ), 2, 3, 4] 2).getD 0 0 =
      mean ([(1 : ℚ), 2, 3, 4].take 1) ∧
    (movingAverage [(1 : ℚ), 2, 3, 4] 2).getD 2 0 =
      mean (([(1 : ℚ), 2, 3, 4].drop 1).take 2) := by
  have h := C1_smoother [(1 : ℚ), 2, 3, 4] 2 (by norm_num)
  refine ⟨by simpa using h.1, ?_, ?_⟩
  · have h2 := h.2.2.1 0 (by norm_num) (by norm_num)
    simpa using h2
  · have h3 := h.2.2.2 2 (by norm_num) (by norm_num)
    simpa using h3

lemma roleOf_markers (x : List String) (y : List ℚ) (n : String) :
    roleOf (Trace.mk x y Mode.markers n) = Role.recent := rfl

lemma roleOf_linesMarkers (x : List String) (y : List ℚ) (n : String) :
    roleOf (Trace.mk x y Mode.linesMarkers n) = Role.future := rfl

lemma roleOf_actual (x : List String) (y : List ℚ) :
    roleOf (Trace.mk x y Mode.lines "Actual (Test)") = Role.actual := rfl

lemma roleOf_predicted (x : List String) (y : List ℚ) :
    roleOf (Trace.mk x y Mode.lines "Predicted (Test)") = Role.predicted := rfl

/-- C10: `movingAverage` on any non-array input (null, undefined, a number,
a string, a boolean) returns the empty sequence; it is total at its public
boundary. -/
theorem C10_smoother_total (v : JSVal) (w : ℕ) (h : isArray v = false) :
    movingAverageJS v w = [] := by
  cases v
  · simp [isArray] at h
  all_goals rfl

/-- Witness for C10 at `v = null`, `w = 7`. -/
theorem C10_smoother_total_witness :
    isArray JSVal.null = false ∧ movingAverageJS JSVal.null 7 = [] :=
  ⟨rfl, C10_smoother_total JSVal.null 7 rfl⟩

/-- C2 counterexample: a response whose `future_dates` and `future_preds`
are both present but empty.  The claim says no future series is emitted;
the code's guard `data.future_preds && data.future_dates` only tests
presence (an empty array is truthy in JS), so a future series is emitted. -/
theorem C2_counterexample :
    ¬ ((buildTraces false 3 false 12
          (PredictionData.mk "T" 0 (some ["d"]) (some [(1 : ℚ)])
            (some [(1 : ℚ)]) (some []) (some []))).countP
          (fun t => decide (t.mode = Mode.linesMarkers)) = 0) := by
  decide

/-- C2 (amended): the composed series list includes a future series iff
both `future_dates` and `future_preds` are present (JS-truthy) — regardless
of emptiness; when both are present but empty, a future series with empty
x and y data is emitted.  The future series is the unique
`lines+markers` trace, and its x/y are the future arrays. -/
theorem C2_future_series (us : Bool) (sw : ℕ) (sr : Bool) (rn : ℕ)
    (d : PredictionData) :
    ((buildTraces us sw sr rn d).countP
        (fun t => decide (t.mode = Mode.linesMarkers)) =
      if d.future_preds.isSome ∧ d.future_dates.isSome then 1 else 0) ∧
    (∀ t, t ∈ buildTraces us sw sr rn d → t.mode = Mode.linesMarkers →
      t.x = d.future_dates.getD [] ∧ t.y = d.future_preds.getD []) := by
  by_cases h1 : sr ∧ 0 < (d.actual.getD []).length <;>
    by_cases h2 : d.future_preds.isSome ∧ d.future_dates.isSome <;>
    constructor <;>
    simp [buildTraces, h1, h2]

/-- Witness for C2 at a response with present-but-empty future arrays:
exactly one future series, whose y data is empty. -/
theorem C2_future_series_witness :
    ((buildTraces false 3 false 12
        (PredictionData.mk "T" 0 (some ["d"]) (some [(1 : ℚ)])
          (some [(1 : ℚ)]) (some []) (some []))).countP
        (fun t => decide (t.mode = Mode.linesMarkers)) = 1) ∧
    (Trace.mk [] [] Mode.linesMarkers "Predicted (Future 0 days)").y = [] := by
  have h := C2_future_series false 3 false 12
    (PredictionData.mk "T" 0 (some ["d"]) (some [(1 : ℚ)])
      (some [(1 : ℚ)]) (some []) (some []))
  constructor
  · simpa using h.1
  · exact (h.2 (Trace.mk [] [] Mode.linesMarkers "Predicted (Future 0 days)")
      (by decide) rfl).2

/-- C3 counterexample: with the three numeric form fields all empty
(absent), the built request does not carry the claimed defaults 60/10/30 —
`parseInt('')` is `NaN` (serialized as `null`) for lookback and epochs, and
`parseInt('' || 0)` is `0`, not `30`, for future_days. -/
theorem C3_counterexample :
    (buildRequest "AAPL" "2024-01-01" "2024-06-30" "" "" "").lookback ≠
        some 60 ∧
    (buildRequest "AAPL" "2024-01-01" "2024-06-30" "" "" "").epochs ≠
        some 10 ∧
    (buildRequest "AAPL" "2024-01-01" "2024-06-30" "" "" "").future_days ≠
        some 30 := by
  decide

/-- C3 (amended): when `lookback` or `epochs` is absent or non-numeric the
request carries `NaN` (serialized as `null`), not a default; `future_days`
falls back to `0` when the field is empty and is `NaN` when non-numeric;
numeric values parse normally; no error is surfaced (the request is built
and sent unconditionally). -/
theorem C3_field_parsing (t s e : String) :
    (buildRequest t s e "" "" "").lookback = none ∧
    (buildRequest t s e "" "" "").epochs = none ∧
    (buildRequest t s e "" "" "").future_days = some 0 ∧
    (buildRequest t s e "abc" "x7" "n/a").lookback = none ∧
    (buildRequest t s e "abc" "x7" "n/a").epochs = none ∧
    (buildRequest t s e "abc" "x7" "n/a").future_days = none ∧
    (buildRequest t s e "60" "10" "30").lookback = some 60 ∧
    (buildRequest t s e "60" "10" "30").epochs = some 10 ∧
    (buildRequest t s e "60" "10" "30").future_days = some 30 :=
  ⟨rfl, rfl, rfl, rfl, rfl, rfl, rfl, rfl, rfl⟩

/-- C4: the recent-markers series (the unique `markers` trace) is emitted
iff `showRecent` is set and `actual` is non-empty; when emitted, its length
is `min 12 actual.length` (`RECENT_N = 12` in this configuration) and its x
and y are the trailing slices of `dates` and `actual`. -/
theorem C4_recent_markers (us : Bool) (sw : ℕ) (sr : Bool)
    (d : PredictionData) :
    ((buildTraces us sw sr 12 d).countP
        (fun t => decide (t.mode = Mode.markers)) =
      if sr ∧ 0 < (d.actual.getD []).length then 1 else 0) ∧
    (∀ t, t ∈ buildTraces us sw sr 12 d → t.mode = Mode.markers →
      t.y.length = min 12 (d.actual.getD []).length ∧
      t.x = (d.dates.getD []).drop
        ((d.dates.getD []).length - min 12 (d.actual.getD []).length) ∧
      t.y = (d.actual.getD []).drop
        ((d.actual.getD []).length - min 12 (d.actual.getD []).length)) := by
  have hslice : ∀ (h1 : sr ∧ 0 < (d.actual.getD []).length),
      jsSliceLast (d.actual.getD []) (min 12 (d.actual.getD []).length) =
        (d.actual.getD []).drop
          ((d.actual.getD []).length - min 12 (d.actual.getD []).length) := by
    intro h1
    unfold jsSliceLast
    rw [if_neg (by omega)]
  have hsliceD : ∀ (h1 : sr ∧ 0 < (d.actual.getD []).length),
      jsSliceLast (d.dates.getD []) (min 12 (d.actual.getD []).length) =
        (d.dates.getD []).drop
          ((d.dates.getD []).length - min 12 (d.actual.getD []).length) := by
    intro h1
    unfold jsSliceLast
    rw [if_neg (by omega)]
  constructor
  · by_cases h1 : sr ∧ 0 < (d.actual.getD []).length <;>
      by_cases h2 : d.future_preds.isSome ∧ d.future_dates.isSome <;>
      simp [buildTraces, h1, h2]
  · by_cases h1 : sr ∧ 0 < (d.actual.getD []).length
    · have hy := hslice h1
      have hx := hsliceD h1
      have hlen : (jsSliceLast (d.actual.getD [])
          (min 12 (d.actual.getD []).length)).length =
          min 12 (d.actual.getD []).length := by
        rw [hy, List.length_drop]; omega
      by_cases h2 : d.future_preds.isSome ∧ d.future_dates.isSome <;>
        simp [buildTraces, h1, h2] <;>
        exact ⟨hlen, hx, hy⟩
    · by_cases h2 : d.future_preds.isSome ∧ d.future_dates.isSome <;>
        simp [buildTraces, h1, h2]

/-- Witness for C4 at a response with 3 actual points and markers enabled:
one markers trace, with y the whole actual array (min 12 3 = 3). -/
theorem C4_recent_markers_witness :
    ((buildTraces false 3 true 12
        (PredictionData.mk "T" 0 (some ["a", "b", "c"])
          (some [(10 : ℚ), 11, 12]) (some [(9 : ℚ), 9, 9]) none none)).countP
        (fun t => decide (t.mode = Mode.markers)) = 1) ∧
    (Trace.mk ["a", "b", "c"] [(10 : ℚ), 11, 12] Mode.markers
        "Recent (Markers)").y.length = min 12 3 := by
  have h := C4_recent_markers false 3 true
    (PredictionData.mk "T" 0 (some ["a", "b", "c"])
      (some [(10 : ℚ), 11, 12]) (some [(9 : ℚ), 9, 9]) none none)
  constructor
  · have h1 := h.1
    norm_num at h1
    exact h1
  · have h2 := (h.2 (Trace.mk ["a", "b", "c"] [(10 : ℚ), 11, 12] Mode.markers
      "Recent (Markers)") (by decide) rfl).1
    exact h2.trans (by norm_num)

/-- C5: the predicted series (named "Predicted (Test)") is always emitted,
with x the dates and y equal to the raw `predicted` when smoothing is off
and to `movingAverage predicted 3` when it is on (`SMOOTH_WINDOW = 3` in
this configuration; for an empty `predicted` the handler skips the call,
but `movingAverage [] 3 = []` so the equation still holds). -/
theorem C5_predicted_series (us : Bool) (sr : Bool) (rn : ℕ)
    (d : PredictionData) :
    ∃ t, t ∈ buildTraces us 3 sr rn d ∧ t.name = "Predicted (Test)" ∧
      t.x = d.dates.getD [] ∧
      t.y = (if us then movingAverage (d.predicted.getD []) 3
             else d.predicted.getD []) := by
  refine ⟨Trace.mk (d.dates.getD [])
    (if us ∧ 0 < (d.predicted.getD []).length
     then movingAverage (d.predicted.getD []) 3 else d.predicted.getD [])
    Mode.lines "Predicted (Test)", ?_, rfl, rfl, ?_⟩
  · simp [buildTraces]
  · by_cases hu : us
    · by_cases hp : 0 < (d.predicted.getD []).length
      · simp [hu, hp]
      · have h0 : d.predicted.getD [] = [] :=
          List.length_eq_zero.mp (by omega)
        simp [hu, hp, h0, movingAverage]
    · simp [hu]

/-- C6: the composed series list always has between 2 and 4 traces; mapped
to roles it is a sublist of the fixed order
actual, recent, predicted, future; and the actual and predicted series are
always present. -/
theorem C6_series_order (us : Bool) (sw : ℕ) (sr : Bool) (rn : ℕ)
    (d : PredictionData) :
    2 ≤ (buildTraces us sw sr rn d).length ∧
    (buildTraces us sw sr rn d).length ≤ 4 ∧
    List.Sublist ((buildTraces us sw sr rn d).map roleOf)
      [Role.actual, Role.recent, Role.predicted, Role.future] ∧
    Role.actual ∈ (buildTraces us sw sr rn d).map roleOf ∧
    Role.predicted ∈ (buildTraces us sw sr rn d).map roleOf := by
  by_cases h1 : sr ∧ 0 < (d.actual.getD []).length <;>
    by_cases h2 : d.future_preds.isSome ∧ d.future_dates.isSome <;>
    simp [buildTraces, h1, h2, roleOf_markers, roleOf_linesMarkers,
      roleOf_actual, roleOf_predicted]

/-- C7 counterexample: body `{"error":""}` with status text
"Internal Server Error".  The claim's chain uses the error field whenever
it is present, so it prescribes "Error: "; the code's `||` chain skips the
falsy empty string and shows "Error: Internal Server Error". -/
theorem C7_counterexample :
    errorMessage (ErrBody.mk (some "") "\x7b\"error\":\"\"\x7d")
        "Internal Server Error" ≠
      claimedErrorMessage (ErrBody.mk (some "") "\x7b\"error\":\"\"\x7d")
        "Internal Server Error" := by
  decide

/-- C7 (amended): on a non-ok response the status text is "Error: "
followed by the first truthy (non-empty) of: the body's `error` field, the
response status text, the stringified body; no chart is drawn; in
particular a body with `error` field "model failed" yields exactly
"Error: model failed". -/
theorem C7_error_branch (us : Bool) (sw : ℕ) (sr : Bool) (rn : ℕ)
    (eb : ErrBody) (st : String) :
    (handleFetch us sw sr rn (FetchResult.httpError st eb) =
      SubmitOutcome.failure ("Error: " ++
        (if eb.error.getD "" = ""
         then (if st = "" then eb.stringified else st)
         else eb.error.getD ""))) ∧
    drawsChart (handleFetch us sw sr rn (FetchResult.httpError st eb)) =
      false ∧
    (eb.error = some "model failed" →
      handleFetch us sw sr rn (FetchResult.httpError st eb) =
        SubmitOutcome.failure "Error: model failed") := by
  refine ⟨rfl, rfl, ?_⟩
  intro he
  simp [handleFetch, errorMessage, he, jsOr]

/-- Witness for C7: HTTP error with status text "Internal Server Error"
and body `{"error":"model failed"}` yields exactly
"Error: model failed". -/
theorem C7_error_branch_witness :
    handleFetch true 3 true 12
      (FetchResult.httpError "Internal Server Error"
        (ErrBody.mk (some "model failed")
          "\x7b\"error\":\"model failed\"\x7d")) =
      SubmitOutcome.failure "Error: model failed" :=
  (C7_error_branch true 3 true 12
    (ErrBody.mk (some "model failed") "\x7b\"error\":\"model failed\"\x7d")
    "Internal Server Error").2.2 rfl

/-- C8 counterexample: the layout's range-slider visibility is the literal
`true`; with `showRangeslider = false` it does not equal the toggle. -/
theorem C8_counterexample :
    ¬ ((buildLayout "ABC").rangesliderVisible =
        (DisplayToggles.mk false true true).showRangeslider) := by
  decide

/-- C8 (amended): the composed layout's range-slider visibility is always
`true`, for every ticker name and independently of any toggles (the source
hard-codes `rangeslider.visible: true`). -/
theorem C8_rangeslider (ticker : String) (tog : DisplayToggles) :
    (buildLayout ticker).rangesliderVisible = true := rfl

/-- C9: a successful response with `dates`, `actual` and `predicted` all
missing still renders a chart: the handler takes the success branch with
exactly the actual and predicted series carrying empty data, and with no
future fields there is no future series; more generally the trace builder
treats each missing array field exactly as the empty array. -/
theorem C9_missing_arrays (us : Bool) (sw : ℕ) (sr : Bool) (rn : ℕ)
    (d : PredictionData) (hd : d.dates = none) (ha : d.actual = none)
    (hp : d.predicted = none) (hf : d.future_dates = none) :
    handleFetch us sw sr rn (FetchResult.ok d) =
      SubmitOutcome.success "Prediction complete ✔"
        [Trace.mk [] [] Mode.lines "Actual (Test)",
         Trace.mk [] [] Mode.lines "Predicted (Test)"]
        (buildLayout d.ticker) ∧
    drawsChart (handleFetch us sw sr rn (FetchResult.ok d)) = true ∧
    (∀ d2 : PredictionData, buildTraces us sw sr rn d2 =
      buildTraces us sw sr rn
        (PredictionData.mk d2.ticker d2.rmse (some (d2.dates.getD []))
          (some (d2.actual.getD [])) (some (d2.predicted.getD []))
          d2.future_dates d2.future_preds)) := by
  refine ⟨?_, rfl, fun d2 => rfl⟩
  simp [handleFetch, buildTraces, hd, ha, hp, hf]

/-- Witness for C9 at a concrete all-arrays-missing response. -/
theorem C9_missing_arrays_witness :
    handleFetch true 3 true 12
      (FetchResult.ok (PredictionData.mk "XYZ" 1 none none none none none)) =
      SubmitOutcome.success "Prediction complete ✔"
        [Trace.mk [] [] Mode.lines "Actual (Test)",
         Trace.mk [] [] Mode.lines "Predicted (Test)"]
        (buildLayout "XYZ") :=
  (C9_missing_arrays true 3 true 12
    (PredictionData.mk "XYZ" 1 none none none none none)
    rfl rfl rfl rfl).1

end StockApp
